import Mathlib

/-!
Shallow embedding of the Exotic_Atom_Lab slow-control monitor
(`Devices.py`, `monitor.py`, `Database.py`), together with theorems about
the device protocol decode, the connection-recovery procedure and the
polling loop.

Modelling conventions:
* Protocol lines are `List Char` (ASCII).  The serial layer's
  `read_until(b'\r').decode('ascii', errors='ignore').strip()` is modelled
  as delivering one already-stripped line; the finite list of lines passed
  to a gauge read models the lines arriving inside its 2-second deadline
  window (the empty remainder of the list models deadline expiry).
* Python floats are modelled as exact rationals (ideal arithmetic).
* Object identity and aliasing (serial connections shared by several
  devices) are modelled by a store of connections indexed by `Nat`;
  a device holds an index into that store.
* The `try/except` wrappers around device reads are modelled by explicit
  outcome values; the decode paths themselves cannot raise.
-/

/-- `f"{n:03d}"`: the decimal digits of `n`, zero-padded on the left to
width at least 3. -/
def pad3 (n : Nat) : List Char :=
  let s := Nat.toDigits 10 n
  List.replicate (3 - s.length) '0' ++ s

/-- `calculate_checksum` from `Devices.py`: the sum of the ASCII codes of
the command characters, mod 256. -/
def calculate_checksum (cmd : List Char) : Nat :=
  (cmd.map Char.toNat).sum % 256

/-- The command body `f"{address:03d}00{param:03d}02=?"`. -/
def frameCmd (address param : Nat) : List Char :=
  pad3 address ++ ['0', '0'] ++ pad3 param ++ ['0', '2', '=', '?']

/-- The full outgoing command `f"{cmd}{chk:03d}\r"`. -/
def fullCmd (address param : Nat) : List Char :=
  frameCmd address param ++ pad3 (calculate_checksum (frameCmd address param)) ++ ['\r']

/-- Python slice `l[a:-b]` (total: empty when out of range). -/
def pySliceL (l : List Char) (a b : Nat) : List Char :=
  (l.take (l.length - b)).drop a

/-- Python `.strip()` on a payload (drop whitespace at both ends). -/
def trimL (l : List Char) : List Char :=
  ((l.dropWhile Char.isWhitespace).reverse.dropWhile Char.isWhitespace).reverse

/-- Python `line.startswith(pat)`. -/
def startsWithL : List Char → List Char → Bool
  | _, [] => true
  | [], _ :: _ => false
  | c :: cs, p :: ps => c == p && startsWithL cs ps

/-- Python `str.isdigit()`: nonempty and all decimal digits. -/
def isDigits (l : List Char) : Bool :=
  !l.isEmpty && l.all Char.isDigit

/-- Python `"?" in s`. -/
def containsQ (l : List Char) : Bool :=
  l.any (fun c => c == '?')

/-- Python `int(s)` on a string of decimal digits. -/
def digitsToNat (l : List Char) : Nat :=
  l.foldl (fun a c => a * 10 + (c.toNat - 48)) 0

/-- Python `10 ** e` for an integer `e`, as an exact rational. -/
def qpow10 (e : Int) : ℚ :=
  if 0 ≤ e then ((10 : ℚ) ^ e.toNat) else ((10 : ℚ) ^ (-e).toNat)⁻¹

/-- One reading dict `{'value': ..., 'unit': ..., 'status': ...}` as
produced by the drivers in `Devices.py`, plus the optional `'field'` key
that `Database.py` looks up with `data_dict.get('field', 'value')`.
None of the drivers in `Devices.py` ever sets the `'field'` key. -/
structure Reading where
  value : Option ℚ
  unit : String
  status : String
  field : Option String
deriving DecidableEq, Repr

/-- The response header `f"{self.address:03d}10{param:03d}"` that a valid
reply line must start with. -/
def respHeader (address param : Nat) : List Char :=
  pad3 address ++ ['1', '0'] ++ pad3 param

/-- The scientific decode `float(s[:4])/1000.0 * 10**(int(s[4:]) - 20)`
from `PfeifferGauge.read_data`. -/
def sciDecode (l : List Char) : ℚ :=
  (digitsToNat (l.take 4) : ℚ) / 1000 * qpow10 ((digitsToNat (l.drop 4) : Int) - 20)

/-- One iteration of the gauge's 2-second read loop on one arrived line,
mirroring `PfeifferGauge.read_data` (`Devices.py` lines 126-147):
`some r` models `return r`; `none` models every path that falls through
and keeps listening (non-matching line, filtered noise, or a matching
non-digit non-sentinel payload). -/
def PfeifferGauge.readLine (address : Nat) (line : List Char) : Option Reading :=
  if startsWithL line (respHeader address 740) = true then
    let data_str := trimL (pySliceL line 10 3)
    if containsQ data_str = true ∨ data_str.length < 6 then none
    else if isDigits data_str = true then
      some { value := some (sciDecode data_str), unit := "mbar", status := "OK", field := none }
    else if data_str = ['9', '9', '9', '9', '9', '9'] then
      some { value := none, unit := "mbar", status := "Over-range", field := none }
    else if data_str = ['0', '0', '0', '0', '0', '0'] then
      some { value := none, unit := "mbar", status := "Low-vac", field := none }
    else none
  else none

/-- `PfeifferGauge.read_data`: scan the lines arriving within the 2-second
window; the first line on which the loop body returns decides the Reading;
an exhausted window is the deadline expiring, status `"Timeout"`. -/
def PfeifferGauge.read_data (address : Nat) : List (List Char) → Reading
  | [] => { value := none, unit := "mbar", status := "Timeout", field := none }
  | l :: ls =>
    match PfeifferGauge.readLine address l with
    | some r => r
    | none => PfeifferGauge.read_data address ls

/-- `PfeifferTurboPump.read_data` (`Devices.py` lines 159-197): a single
command for parameter 309 (rotation speed), a 0.15 s settle, then at most
one response read; `resp` is the response line if one was waiting. -/
def PfeifferTurboPump.read_data (address : Nat) (resp : Option (List Char)) : Reading :=
  match resp with
  | none => { value := none, unit := "Hz", status := "No Data", field := none }
  | some response =>
    if 10 < response.length ∧ startsWithL response (pad3 address) = true then
      let data := trimL (pySliceL response 10 3)
      if isDigits data = true then
        { value := some ((digitsToNat data : ℚ)), unit := "Hz", status := "OK", field := none }
      else
        { value := none, unit := "Hz", status := "Bad Data: " ++ String.mk data, field := none }
    else
      { value := none, unit := "Hz", status := "Bad Packet", field := none }

/-- The commands one `PfeifferTurboPump.read_data` call writes to the bus:
exactly the single parameter-309 frame. -/
def PfeifferTurboPump.commands (address : Nat) : List (List Char) :=
  [fullCmd address 309]

/-- The Readings one `PfeifferTurboPump.read_data` call produces: the
method returns a single dict, hence one Reading. -/
def PfeifferTurboPump.readings (address : Nat) (resp : Option (List Char)) : List Reading :=
  [PfeifferTurboPump.read_data address resp]

/-- A serial connection as `open_serial_port` configures it (the fixed
8N1/no-flow-control framing is constant and omitted). -/
structure Conn where
  port : String
  baud : Nat
  is_open : Bool
deriving DecidableEq, Repr

/-- Default connection used by total store lookups. -/
def dConn : Conn := { port := "", baud := 0, is_open := false }

/-- A `LabDevice`: a name and a reference (store index) to its serial
connection `self.ser`.  Kind and bus address do not participate in
connection sharing or recovery and are omitted here. -/
structure Device where
  name : String
  ser : Nat
deriving DecidableEq, Repr

/-- Default device used by total list lookups. -/
def dDev : Device := { name := "", ser := 0 }

/-- The mutable state recovery acts on: the store of connection objects
and the global device list. -/
structure SysState where
  conns : List Conn
  devs : List Device
deriving DecidableEq, Repr

/-- Dereference a device's connection pointer. -/
def connAt (st : SysState) (i : Nat) : Conn :=
  st.conns.getD i dConn

/-- In-place update of the connection object at index `i`. -/
def updateAt (i : Nat) (f : Conn → Conn) : List Conn → List Conn
  | [] => []
  | c :: cs =>
    match i with
    | 0 => f c :: cs
    | Nat.succ k => c :: updateAt k f cs

/-- `open_serial_port` from `Devices.py`: constructs a brand-new
`serial.Serial` on every call (there is no registry); modelled as
appending a fresh open connection to the store and returning its index. -/
def open_serial_port (port : String) (baud : Nat) (conns : List Conn) : Nat × List Conn :=
  (conns.length, conns ++ [{ port := port, baud := baud, is_open := true }])

/-- One device-setup block of `monitor.py`: open the declared port, then
append the device bound to that fresh connection. -/
def setupDevice (name port : String) (baud : Nat) (st : List Conn × List Device) :
    List Conn × List Device :=
  let r := open_serial_port port baud st.1
  (r.2, st.2 ++ [{ name := name, ser := r.1 }])

/-- The three setup blocks of `monitor.py` lines 25-70, in source order. -/
def monitorSetup : List Conn × List Device :=
  setupDevice "Beam bending chamber turbo pump" "/dev/ttyUSB2" 9600
    (setupDevice "Target chamber turbo pump" "/dev/ttyUSB0" 9600
      (setupDevice "Target chamber vacuum gauge" "/dev/ttyUSB1" 9600 ([], [])))

/-- The best-effort close step of `reconnect_device` (lines 26-30): if the
dead connection is open, try to close it; a raised exception (`closeOk =
false`) is swallowed and leaves it open. -/
def closeConns (closeOk : Bool) (ci : Nat) (conns : List Conn) : List Conn :=
  updateAt ci (fun c => { c with is_open := c.is_open && !closeOk }) conns

/-- `reconnect_device` from `Devices.py` lines 10-54.  `closeOk` models
whether the best-effort `close()` succeeds (its exception is swallowed);
`openOk` models whether reopening via `open_serial_port` succeeds (on
failure the function returns at line 42 and nothing further happens). -/
def reconnect_device (closeOk openOk : Bool) (crashed : Device) (st : SysState) : SysState :=
  let port := (connAt st crashed.ser).port
  let baud := (connAt st crashed.ser).baud
  let conns1 := closeConns closeOk crashed.ser st.conns
  let st1 : SysState := { st with conns := conns1 }
  if openOk then
    let fid := st1.conns.length
    let newC : Conn := { port := port, baud := baud, is_open := true }
    { conns := st1.conns ++ [newC],
      devs := st1.devs.map (fun d =>
        if (connAt st1 d.ser).port = port then { d with ser := fid } else d) }
  else st1

/-- Outcome of one `device.read_data()` call inside the poll loop's
per-device `try`: either the call raises, or it returns a Reading. -/
inductive DevOutcome where
  | raises : DevOutcome
  | returns : Reading → DevOutcome
deriving DecidableEq, Repr

/-- The sink submissions one device contributes in a cycle
(`monitor.py` lines 79-92): nothing if the read raises, the reading
tagged with the device name if `data.get('value') is not None`. -/
def forwardOne : String × DevOutcome → List (String × Reading)
  | (_, DevOutcome.raises) => []
  | (n, DevOutcome.returns r) => if r.value.isSome = true then [(n, r)] else []

/-- All sink submissions of one poll cycle, in device order. -/
def pollCycleForwards : List (String × DevOutcome) → List (String × Reading)
  | [] => []
  | p :: rest => forwardOne p ++ pollCycleForwards rest

/-- The per-device results of one poll cycle: every device is visited;
a raising read is caught by the per-device `except` and recorded as
`none`. -/
def pollCycleResults : List (String × DevOutcome) → List (String × Option Reading)
  | [] => []
  | (n, DevOutcome.raises) :: rest => (n, none) :: pollCycleResults rest
  | (n, DevOutcome.returns r) :: rest => (n, some r) :: pollCycleResults rest

/-- An InfluxDB point as `Database.py` builds it. -/
structure InfluxPoint where
  measurement : String
  device : String
  unit : String
  fieldName : String
  fieldValue : ℚ
deriving DecidableEq, Repr

/-- `InfluxLogger.log_reading`: skip when there is no value, otherwise
build the point with field name `data_dict.get('field', 'value')`. -/
def InfluxLogger.log_reading (device_name : String) (r : Reading) : Option InfluxPoint :=
  match r.value with
  | none => none
  | some v =>
    some { measurement := "sensor_data", device := device_name, unit := r.unit,
           fieldName := r.field.getD "value", fieldValue := v }

/-! ### Helper lemmas -/

lemma not_ws_of_digit (c : Char) (h : c.isDigit = true) : c.isWhitespace = false := by
  rcases Bool.eq_false_or_eq_true c.isWhitespace with hw | hw
  · exfalso
    have hcases : ((c = ' ' ∨ c = '\t') ∨ c = '\r') ∨ c = '\n' := by
      simpa [Char.isWhitespace] using hw
    rcases hcases with ((h1 | h1) | h1) | h1 <;> subst h1 <;> exact absurd h (by decide)
  · exact hw

lemma not_qm_of_digit (c : Char) (h : c.isDigit = true) : (c == '?') = false := by
  rcases Bool.eq_false_or_eq_true (c == '?') with hq | hq
  · exfalso
    have hc : c = '?' := by simpa using hq
    subst hc
    exact absurd h (by decide)
  · exact hq

lemma dropWhile_ws_of_digits (l : List Char) (h : l.all Char.isDigit = true) :
    l.dropWhile Char.isWhitespace = l := by
  cases l with
  | nil => rfl
  | cons c cs =>
    have hc : c.isDigit = true := by
      simp only [List.all_cons, Bool.and_eq_true] at h
      exact h.1
    simp [List.dropWhile_cons, not_ws_of_digit c hc]

lemma trimL_of_digits (l : List Char) (h : l.all Char.isDigit = true) : trimL l = l := by
  have hrev : l.reverse.all Char.isDigit = true := by
    simpa using h
  unfold trimL
  rw [dropWhile_ws_of_digits l h, dropWhile_ws_of_digits l.reverse hrev, List.reverse_reverse]

lemma qpow10_eq_zpow (e : Int) : qpow10 e = (10 : ℚ) ^ e := by
  unfold qpow10
  split
  · next h =>
    obtain ⟨n, rfl⟩ := Int.eq_ofNat_of_zero_le h
    have h1 : ((n : Int)).toNat = n := rfl
    rw [h1]
    exact (zpow_natCast (10 : ℚ) n).symm
  · next h =>
    push_neg at h
    obtain ⟨n, rfl⟩ := Int.eq_negSucc_of_lt_zero h
    have h1 : (-Int.negSucc n).toNat = n + 1 := rfl
    rw [h1, zpow_negSucc]

lemma startsWithL_append (pre rest : List Char) : startsWithL (pre ++ rest) pre = true := by
  induction pre with
  | nil => cases rest <;> rfl
  | cons c cs ih => simp [startsWithL, ih]

lemma pySliceL_exact (c10 p tail : List Char) (h10 : c10.length = 10) (h3 : tail.length = 3) :
    pySliceL (c10 ++ p ++ tail) 10 3 = p := by
  unfold pySliceL
  have hlen : (c10 ++ p ++ tail).length - 3 = 10 + p.length := by
    simp only [List.length_append, h10, h3]
    omega
  rw [hlen, List.append_assoc, List.take_append_eq_append_take]
  rw [List.take_of_length_le (by omega), h10]
  have h2 : 10 + p.length - 10 = p.length := by omega
  rw [h2, List.take_append_eq_append_take, List.take_length]
  have h4 : p.length - p.length = 0 := by omega
  rw [h4, List.take_zero, List.append_nil, List.drop_append_eq_append_drop]
  have h5 : 10 - c10.length = 0 := by omega
  rw [h5, List.drop_zero]
  have h6 : c10.drop 10 = [] := by
    rw [← h10, List.drop_length]
  rw [h6, List.nil_append]

lemma getD_map_lt {α β : Type} (f : α → β) (l : List α) (i : Nat) (d : α) (d2 : β)
    (h : i < l.length) : (l.map f).getD i d2 = f (l.getD i d) := by
  induction l generalizing i with
  | nil => simp at h
  | cons a t ih =>
    cases i with
    | zero => rfl
    | succ k =>
      simp only [List.map_cons, List.getD_cons_succ]
      exact ih k (by simpa using h)

lemma updateAt_length (i : Nat) (f : Conn → Conn) (l : List Conn) :
    (updateAt i f l).length = l.length := by
  induction l generalizing i with
  | nil => simp [updateAt]
  | cons c cs ih =>
    cases i with
    | zero => simp [updateAt]
    | succ k => simpa [updateAt] using ih k

lemma updateAt_getD (i k : Nat) (f : Conn → Conn) (l : List Conn) (d : Conn) :
    (updateAt i f l).getD k d =
      if k = i ∧ k < l.length then f (l.getD k d) else l.getD k d := by
  induction l generalizing i k with
  | nil => simp [updateAt]
  | cons c cs ih =>
    cases i with
    | zero =>
      cases k with
      | zero => simp [updateAt]
      | succ k' => simp [updateAt, List.getD_cons_succ]
    | succ i' =>
      cases k with
      | zero => simp [updateAt]
      | succ k' =>
        simp only [updateAt, List.getD_cons_succ, List.length_cons]
        rw [ih i' k']
        by_cases hc : k' = i' ∧ k' < cs.length
        · rw [if_pos hc, if_pos (by omega)]
        · rw [if_neg hc, if_neg (fun h2 => hc ⟨by omega, by omega⟩)]

lemma updateAt_getD_port (i k : Nat) (f : Conn → Conn) (hf : ∀ c, (f c).port = c.port)
    (l : List Conn) (d : Conn) :
    ((updateAt i f l).getD k d).port = (l.getD k d).port := by
  rw [updateAt_getD]
  split
  · exact hf _
  · rfl

lemma updateAt_getD_baud (i k : Nat) (f : Conn → Conn) (hf : ∀ c, (f c).baud = c.baud)
    (l : List Conn) (d : Conn) :
    ((updateAt i f l).getD k d).baud = (l.getD k d).baud := by
  rw [updateAt_getD]
  split
  · exact hf _
  · rfl

lemma getD_append_self {α : Type} (l : List α) (x : α) (d : α) :
    (l ++ [x]).getD l.length d = x := by
  induction l with
  | nil => rfl
  | cons a t ih =>
    show (a :: (t ++ [x])).getD (t.length + 1) d = x
    rw [List.getD_cons_succ]
    exact ih

lemma reconnect_device_openOk (closeOk : Bool) (crashed : Device) (st : SysState) :
    reconnect_device closeOk true crashed st =
      SysState.mk
        (closeConns closeOk crashed.ser st.conns ++
          [Conn.mk (connAt st crashed.ser).port (connAt st crashed.ser).baud true])
        (st.devs.map (fun d =>
          if ((closeConns closeOk crashed.ser st.conns).getD d.ser dConn).port =
              (connAt st crashed.ser).port
          then Device.mk d.name (closeConns closeOk crashed.ser st.conns).length
          else d)) := rfl

lemma reconnect_device_openFail (closeOk : Bool) (crashed : Device) (st : SysState) :
    reconnect_device closeOk false crashed st =
      SysState.mk (closeConns closeOk crashed.ser st.conns) st.devs := rfl

lemma pollCycleForwards_append (a b : List (String × DevOutcome)) :
    pollCycleForwards (a ++ b) = pollCycleForwards a ++ pollCycleForwards b := by
  induction a with
  | nil => rfl
  | cons p rest ih => simp [pollCycleForwards, ih]

lemma pollCycleResults_length (l : List (String × DevOutcome)) :
    (pollCycleResults l).length = l.length := by
  induction l with
  | nil => rfl
  | cons p rest ih =>
    obtain ⟨n, o⟩ := p
    cases o <;> simpa [pollCycleResults] using ih

lemma readLine_unit_field (address : Nat) (l : List Char) (r : Reading)
    (h : PfeifferGauge.readLine address l = some r) :
    r.unit = "mbar" ∧ r.field = none := by
  simp only [PfeifferGauge.readLine] at h
  split_ifs at h <;> simp_all <;> subst h <;> exact ⟨rfl, rfl⟩

lemma read_data_unit_field (address : Nat) (lines : List (List Char)) :
    (PfeifferGauge.read_data address lines).unit = "mbar" ∧
      (PfeifferGauge.read_data address lines).field = none := by
  induction lines with
  | nil => exact ⟨rfl, rfl⟩
  | cons l ls ih =>
    simp only [PfeifferGauge.read_data]
    cases hl : PfeifferGauge.readLine address l with
    | none => exact ih
    | some r => exact readLine_unit_field address l r hl

lemma read_data_timeout (address : Nat) (lines : List (List Char))
    (h : ∀ l ∈ lines, PfeifferGauge.readLine address l = none) :
    (PfeifferGauge.read_data address lines).status = "Timeout" := by
  induction lines with
  | nil => rfl
  | cons l ls ih =>
    simp only [PfeifferGauge.read_data]
    rw [h l (by simp)]
    exact ih (fun x hx => h x (by simp [hx]))

lemma read_data_first (address : Nat) (pre : List (List Char)) (l : List Char)
    (rest : List (List Char)) (r : Reading)
    (hpre : ∀ x ∈ pre, PfeifferGauge.readLine address x = none)
    (hl : PfeifferGauge.readLine address l = some r) :
    PfeifferGauge.read_data address (pre ++ l :: rest) = r := by
  induction pre with
  | nil =>
    simp only [List.nil_append, PfeifferGauge.read_data]
    rw [hl]
  | cons x xs ih =>
    simp only [List.cons_append, PfeifferGauge.read_data]
    rw [hpre x (by simp)]
    exact ih (fun y hy => hpre y (by simp [hy]))

/-! ### Concrete protocol lines used in witnesses and counterexamples -/

/-- A well-formed gauge response line for address 3: the echoed header
`"00310740"`, a 2-character length field, the payload, and a 3-character
checksum field (the gauge code never verifies the response checksum). -/
def gaugeLine (payload : List Char) : List Char :=
  respHeader 3 740 ++ ['0', '6'] ++ payload ++ ['0', '2', '9']

lemma gauge_readLine_digits (a b c d e f : Char)
    (ha : a.isDigit = true) (hb : b.isDigit = true) (hc : c.isDigit = true)
    (hd : d.isDigit = true) (he : e.isDigit = true) (hf : f.isDigit = true) :
    PfeifferGauge.readLine 3 (gaugeLine [a, b, c, d, e, f]) =
      some { value := some (sciDecode [a, b, c, d, e, f]), unit := "mbar",
             status := "OK", field := none } := by
  have hall : ([a, b, c, d, e, f].all Char.isDigit) = true := by
    simp [ha, hb, hc, hd, he, hf]
  have hmatch : startsWithL (gaugeLine [a, b, c, d, e, f]) (respHeader 3 740) = true := by
    have hsplit : gaugeLine [a, b, c, d, e, f] =
        respHeader 3 740 ++ (['0', '6'] ++ [a, b, c, d, e, f] ++ ['0', '2', '9']) := by
      simp [gaugeLine, List.append_assoc]
    rw [hsplit]
    exact startsWithL_append _ _
  have hslice : pySliceL (gaugeLine [a, b, c, d, e, f]) 10 3 = [a, b, c, d, e, f] := by
    have hsplit : gaugeLine [a, b, c, d, e, f] =
        (respHeader 3 740 ++ ['0', '6']) ++ [a, b, c, d, e, f] ++ ['0', '2', '9'] := by
      simp [gaugeLine, List.append_assoc]
    rw [hsplit]
    exact pySliceL_exact _ _ _ (by decide) (by decide)
  have htrim : trimL (pySliceL (gaugeLine [a, b, c, d, e, f]) 10 3) = [a, b, c, d, e, f] := by
    rw [hslice]
    exact trimL_of_digits _ hall
  have hnq : containsQ [a, b, c, d, e, f] = false := by
    simp [containsQ, not_qm_of_digit a ha, not_qm_of_digit b hb, not_qm_of_digit c hc,
      not_qm_of_digit d hd, not_qm_of_digit e he, not_qm_of_digit f hf]
  have hdig : isDigits [a, b, c, d, e, f] = true := by
    simp [isDigits, hall]
  simp only [PfeifferGauge.readLine, htrim]
  rw [if_pos hmatch, if_neg (by simp [hnq]), if_pos hdig]

lemma gauge_read_single_digits (a b c d e f : Char)
    (ha : a.isDigit = true) (hb : b.isDigit = true) (hc : c.isDigit = true)
    (hd : d.isDigit = true) (he : e.isDigit = true) (hf : f.isDigit = true) :
    PfeifferGauge.read_data 3 [gaugeLine [a, b, c, d, e, f]] =
      { value := some (sciDecode [a, b, c, d, e, f]), unit := "mbar",
        status := "OK", field := none } := by
  simp only [PfeifferGauge.read_data,
    gauge_readLine_digits a b c d e f ha hb hc hd he hf]

/-! ### Claim theorems -/

/-- C1 (code_bug evidence): in `PfeifferGauge.read_data` the all-digit
branch is tested before the sentinel branches, so the all-digit sentinel
payloads `"999999"` and `"000000"` are decoded as ordinary scientific
values with status `"OK"` and a present value; the `"Over-range"` and
`"Low-vac"` returns are unreachable for them. -/
theorem gauge_sentinel_payloads_decode_as_ok :
    PfeifferGauge.read_data 3 [gaugeLine ("999999".data)] =
      { value := some ((9999 : ℚ) / 1000 * qpow10 79), unit := "mbar",
        status := "OK", field := none }
    ∧ PfeifferGauge.read_data 3 [gaugeLine ("000000".data)] =
      { value := some 0, unit := "mbar", status := "OK", field := none }
    ∧ (PfeifferGauge.read_data 3 [gaugeLine ("999999".data)]).status ≠ "Over-range"
    ∧ (PfeifferGauge.read_data 3 [gaugeLine ("999999".data)]).value ≠ none
    ∧ (PfeifferGauge.read_data 3 [gaugeLine ("000000".data)]).status ≠ "Low-vac"
    ∧ (PfeifferGauge.read_data 3 [gaugeLine ("000000".data)]).value ≠ none := by
  have h9 := gauge_read_single_digits '9' '9' '9' '9' '9' '9'
    (by decide) (by decide) (by decide) (by decide) (by decide) (by decide)
  have h0 := gauge_read_single_digits '0' '0' '0' '0' '0' '0'
    (by decide) (by decide) (by decide) (by decide) (by decide) (by decide)
  have hv9 : sciDecode ['9', '9', '9', '9', '9', '9'] = (9999 : ℚ) / 1000 * qpow10 79 := by
    have e1 : digitsToNat (List.take 4 ['9', '9', '9', '9', '9', '9']) = 9999 := by decide
    have e2 : digitsToNat (List.drop 4 ['9', '9', '9', '9', '9', '9']) = 99 := by decide
    unfold sciDecode
    rw [e1, e2]
    norm_num
  have hv0 : sciDecode ['0', '0', '0', '0', '0', '0'] = 0 := by
    have e1 : digitsToNat (List.take 4 ['0', '0', '0', '0', '0', '0']) = 0 := by decide
    unfold sciDecode
    rw [e1]
    norm_num
  refine ⟨?_, ?_, ?_, ?_, ?_, ?_⟩
  · rw [show ("999999".data) = ['9', '9', '9', '9', '9', '9'] from rfl, h9, hv9]
  · rw [show ("000000".data) = ['0', '0', '0', '0', '0', '0'] from rfl, h0, hv0]
  · rw [show ("999999".data) = ['9', '9', '9', '9', '9', '9'] from rfl, h9]
    decide
  · rw [show ("999999".data) = ['9', '9', '9', '9', '9', '9'] from rfl, h9]
    simp
  · rw [show ("000000".data) = ['0', '0', '0', '0', '0', '0'] from rfl, h0]
    decide
  · rw [show ("000000".data) = ['0', '0', '0', '0', '0', '0'] from rfl, h0]
    simp

/-- C2 (counterexample): one `PfeifferTurboPump.read_data` call issues a
single command (parameter 309 only) and yields a single Reading — not
three — and every Reading it yields has unit `"Hz"` (there are no
motor-temperature or power-consumption readings). -/
theorem turbo_read_not_three_readings :
    (PfeifferTurboPump.readings 5 (some ("0051030906000820025".data))).length = 1
    ∧ (PfeifferTurboPump.readings 5 (some ("0051030906000820025".data))).length ≠ 3
    ∧ PfeifferTurboPump.readings 5 (some ("0051030906000820025".data)) =
        [{ value := some 820, unit := "Hz", status := "OK", field := none }]
    ∧ (PfeifferTurboPump.commands 5).length = 1
    ∧ (PfeifferTurboPump.commands 5).length ≠ 3 := by
  decide

/-- C2 (amended): every `PfeifferTurboPump.read_data` call issues exactly
one command — the rotation-speed frame (parameter 309) — and returns
exactly one Reading, always with unit `"Hz"`: a well-formed response
whose payload is all digits decodes via the integer form to that
payload's value with status `"OK"`; a missing response gives status
`"No Data"`; a response failing the length/address check gives status
`"Bad Packet"`; a matching response with a non-digit payload gives
status `"Bad Data: <payload>"`. -/
theorem turbo_read_one_reading_integer_form (address : Nat) (resp : Option (List Char)) :
    PfeifferTurboPump.commands address = [fullCmd address 309]
    ∧ (PfeifferTurboPump.readings address resp).length = 1
    ∧ (PfeifferTurboPump.read_data address resp).unit = "Hz"
    ∧ (PfeifferTurboPump.read_data address none).status = "No Data"
    ∧ (∀ raw, 10 < raw.length → startsWithL raw (pad3 address) = true →
        isDigits (trimL (pySliceL raw 10 3)) = true →
        (PfeifferTurboPump.read_data address (some raw)).value =
          some ((digitsToNat (trimL (pySliceL raw 10 3)) : ℚ))
        ∧ (PfeifferTurboPump.read_data address (some raw)).status = "OK")
    ∧ (∀ raw, ¬ (10 < raw.length ∧ startsWithL raw (pad3 address) = true) →
        PfeifferTurboPump.read_data address (some raw)
          = { value := none, unit := "Hz", status := "Bad Packet", field := none })
    ∧ (∀ raw, 10 < raw.length → startsWithL raw (pad3 address) = true →
        isDigits (trimL (pySliceL raw 10 3)) = false →
        PfeifferTurboPump.read_data address (some raw)
          = { value := none, unit := "Hz",
              status := "Bad Data: " ++ String.mk (trimL (pySliceL raw 10 3)),
              field := none }) := by
  refine ⟨rfl, rfl, ?_, rfl, ?_, ?_, ?_⟩
  · cases resp with
    | none => rfl
    | some raw =>
      simp only [PfeifferTurboPump.read_data]
      split_ifs <;> rfl
  · intro raw h1 h2 h3
    simp only [PfeifferTurboPump.read_data]
    rw [if_pos ⟨h1, h2⟩, if_pos h3]
    exact ⟨rfl, rfl⟩
  · intro raw h
    simp only [PfeifferTurboPump.read_data]
    rw [if_neg h]
  · intro raw h1 h2 h3
    simp only [PfeifferTurboPump.read_data]
    rw [if_pos ⟨h1, h2⟩, if_neg (by simp [h3])]

/-- C2 (witness for the amended theorem): the concrete 820 Hz response at
address 5 decodes via the integer form to value 820 with status OK, the
call issues exactly the parameter-309 command, a too-short response gives
Bad Packet, and a matching response with the non-digit payload
`"00X820"` gives the corresponding Bad Data status. -/
theorem turbo_read_one_reading_integer_form_witness :
    (PfeifferTurboPump.read_data 5 (some ("0051030906000820025".data))).value = some 820
    ∧ (PfeifferTurboPump.read_data 5 (some ("0051030906000820025".data))).status = "OK"
    ∧ PfeifferTurboPump.commands 5 = [fullCmd 5 309]
    ∧ PfeifferTurboPump.read_data 5 (some ("005".data))
      = { value := none, unit := "Hz", status := "Bad Packet", field := none }
    ∧ (PfeifferTurboPump.read_data 5 (some ("005103090600X820025".data))).status
      = "Bad Data: 00X820" := by
  have h := turbo_read_one_reading_integer_form 5 (some ("0051030906000820025".data))
  have h5 := h.2.2.2.2.1 ("0051030906000820025".data) (by decide) (by decide) (by decide)
  have h6 := h.2.2.2.2.2.1 ("005".data) (by decide)
  have h7 := h.2.2.2.2.2.2 ("005103090600X820025".data) (by decide) (by decide) (by decide)
  refine ⟨h5.1.trans (by decide), h5.2, h.1, h6, ?_⟩
  rw [h7]
  decide

/-- C3: when recovery is triggered by the crashed device `st.devs[i]` and
the reopen succeeds, every device whose connection's port equals the
crashed device's port — here `st.devs[j]` — is rebound: afterwards both
devices reference the same, freshly allocated Connection (its index is the
old store length, so it is none of the pre-existing objects), and that new
Connection carries the recovered port and is open. -/
theorem reconnect_rebinds_all_port_sharing_devices
    (st : SysState) (closeOk : Bool) (i j : Nat)
    (hi : i < st.devs.length) (hj : j < st.devs.length)
    (hpj : (connAt st (st.devs.getD j dDev).ser).port
         = (connAt st (st.devs.getD i dDev).ser).port) :
    ((reconnect_device closeOk true (st.devs.getD i dDev) st).devs.getD i dDev).ser
      = st.conns.length
    ∧ ((reconnect_device closeOk true (st.devs.getD i dDev) st).devs.getD j dDev).ser
      = st.conns.length
    ∧ ((reconnect_device closeOk true (st.devs.getD i dDev) st).devs.getD i dDev).ser
      = ((reconnect_device closeOk true (st.devs.getD i dDev) st).devs.getD j dDev).ser
    ∧ (connAt (reconnect_device closeOk true (st.devs.getD i dDev) st) st.conns.length).port
      = (connAt st (st.devs.getD i dDev).ser).port
    ∧ (connAt (reconnect_device closeOk true (st.devs.getD i dDev) st) st.conns.length).is_open
      = true := by
  have hlen : (closeConns closeOk (st.devs.getD i dDev).ser st.conns).length
      = st.conns.length := by
    unfold closeConns
    exact updateAt_length _ _ _
  have hport : ∀ k, ((closeConns closeOk (st.devs.getD i dDev).ser st.conns).getD k dConn).port
      = (st.conns.getD k dConn).port := by
    intro k
    unfold closeConns
    exact updateAt_getD_port _ _ (fun c => { c with is_open := c.is_open && !closeOk })
      (fun c => rfl) _ _
  have hci : ((closeConns closeOk (st.devs.getD i dDev).ser st.conns).getD
      (st.devs.getD i dDev).ser dConn).port = (connAt st (st.devs.getD i dDev).ser).port :=
    hport _
  have hcj : ((closeConns closeOk (st.devs.getD i dDev).ser st.conns).getD
      (st.devs.getD j dDev).ser dConn).port = (connAt st (st.devs.getD i dDev).ser).port :=
    (hport _).trans hpj
  rw [reconnect_device_openOk]
  dsimp only
  rw [getD_map_lt _ st.devs i dDev dDev hi, getD_map_lt _ st.devs j dDev dDev hj]
  rw [if_pos hci, if_pos hcj]
  refine ⟨hlen, hlen, rfl, ?_, ?_⟩
  · show ((closeConns closeOk (st.devs.getD i dDev).ser st.conns ++
      [Conn.mk (connAt st (st.devs.getD i dDev).ser).port
        (connAt st (st.devs.getD i dDev).ser).baud true]).getD st.conns.length dConn).port
      = (connAt st (st.devs.getD i dDev).ser).port
    rw [← hlen, getD_append_self]
  · show ((closeConns closeOk (st.devs.getD i dDev).ser st.conns ++
      [Conn.mk (connAt st (st.devs.getD i dDev).ser).port
        (connAt st (st.devs.getD i dDev).ser).baud true]).getD st.conns.length dConn).is_open
      = true
    rw [← hlen, getD_append_self]

/-- A two-device, one-connection state: both devices alias the single
connection object on "/dev/ttyUSB0". -/
def twoDevSt : SysState :=
  SysState.mk [Conn.mk "/dev/ttyUSB0" 9600 true] [Device.mk "A" 0, Device.mk "B" 0]

/-- C3 (witness): on the concrete shared-port state, recovery triggered by
device 0 rebinds device 1 as well — both end up on the fresh connection
with index 1, which is open on "/dev/ttyUSB0". -/
theorem reconnect_rebinds_all_port_sharing_devices_witness :
    ((reconnect_device true true (twoDevSt.devs.getD 0 dDev) twoDevSt).devs.getD 0 dDev).ser = 1
    ∧ ((reconnect_device true true (twoDevSt.devs.getD 0 dDev) twoDevSt).devs.getD 1 dDev).ser = 1
    ∧ (connAt (reconnect_device true true (twoDevSt.devs.getD 0 dDev) twoDevSt) 1).port
        = "/dev/ttyUSB0"
    ∧ (connAt (reconnect_device true true (twoDevSt.devs.getD 0 dDev) twoDevSt) 1).is_open
        = true := by
  have h := reconnect_rebinds_all_port_sharing_devices twoDevSt true 0 1
    (by decide) (by decide) (by decide)
  exact ⟨h.1.trans (by decide), h.2.1.trans (by decide),
    h.2.2.2.1.trans (by decide), h.2.2.2.2⟩

/-- C10: when reopening the port fails, `reconnect_device` returns without
touching any device's connection reference (the device list is unchanged,
so every device still references its old connection object), no
connection's port or baud changes, and the crashed device's connection
handle keeps exactly the state the best-effort close left it in: closed
when `close()` succeeded (or when it was already closed), still open only
when `close()` itself raised. -/
theorem reconnect_open_fail_leaves_references
    (closeOk : Bool) (crashed : Device) (st : SysState) :
    (reconnect_device closeOk false crashed st).devs = st.devs
    ∧ (∀ k, (connAt (reconnect_device closeOk false crashed st) k).port = (connAt st k).port)
    ∧ (∀ k, (connAt (reconnect_device closeOk false crashed st) k).baud = (connAt st k).baud)
    ∧ (connAt (reconnect_device closeOk false crashed st) crashed.ser).is_open
      = ((connAt st crashed.ser).is_open && !closeOk) := by
  rw [reconnect_device_openFail]
  refine ⟨rfl, ?_, ?_, ?_⟩
  · intro k
    show ((closeConns closeOk crashed.ser st.conns).getD k dConn).port
      = (st.conns.getD k dConn).port
    unfold closeConns
    exact updateAt_getD_port _ _ (fun c => { c with is_open := c.is_open && !closeOk })
      (fun c => rfl) _ _
  · intro k
    show ((closeConns closeOk crashed.ser st.conns).getD k dConn).baud
      = (st.conns.getD k dConn).baud
    unfold closeConns
    exact updateAt_getD_baud _ _ (fun c => { c with is_open := c.is_open && !closeOk })
      (fun c => rfl) _ _
  · show ((closeConns closeOk crashed.ser st.conns).getD crashed.ser dConn).is_open
      = ((st.conns.getD crashed.ser dConn).is_open && !closeOk)
    unfold closeConns
    rw [updateAt_getD]
    split
    · rfl
    · next h =>
      have hout : ¬ crashed.ser < st.conns.length := fun hlt => h ⟨rfl, hlt⟩
      have hd : st.conns.getD crashed.ser dConn = dConn :=
        List.getD_eq_default _ _ (by omega)
      rw [hd]
      rfl

/-- Two setup blocks that both declare "/dev/ttyUSB0", following exactly
the per-device pattern of `monitor.py` (one `open_serial_port` call per
device). -/
def sharedPortSetup : List Conn × List Device :=
  setupDevice "Device B" "/dev/ttyUSB0" 9600
    (setupDevice "Device A" "/dev/ttyUSB0" 9600 ([], []))

/-- C4 (counterexample): two devices declaring the same port do NOT
resolve to the same Connection instance — each `open_serial_port` call
creates a fresh handle, so after setup the two devices reference distinct
connection objects that are both open on "/dev/ttyUSB0": two independent
live handles to the same port. -/
theorem open_same_port_gives_two_handles :
    (sharedPortSetup.2.getD 0 dDev).ser ≠ (sharedPortSetup.2.getD 1 dDev).ser
    ∧ (sharedPortSetup.1.getD (sharedPortSetup.2.getD 0 dDev).ser dConn).port = "/dev/ttyUSB0"
    ∧ (sharedPortSetup.1.getD (sharedPortSetup.2.getD 1 dDev).ser dConn).port = "/dev/ttyUSB0"
    ∧ (sharedPortSetup.1.getD (sharedPortSetup.2.getD 0 dDev).ser dConn).is_open = true
    ∧ (sharedPortSetup.1.getD (sharedPortSetup.2.getD 1 dDev).ser dConn).is_open = true := by
  decide

/-- C4 (amended): `open_serial_port` performs no deduplication — every
call allocates a fresh Connection (its index is the current store length,
distinct from every existing index) — and in the shipped `monitor.py`
configuration the three devices get three distinct connections whose
declared ports are pairwise distinct, so no port ends up with two live
handles at setup. -/
theorem open_serial_port_fresh_and_monitor_ports_distinct :
    (∀ port baud conns, (open_serial_port port baud conns).1 = conns.length
      ∧ (open_serial_port port baud conns).2.length = conns.length + 1
      ∧ (open_serial_port port baud conns).2.getD conns.length dConn
          = Conn.mk port baud true)
    ∧ (monitorSetup.2.getD 0 dDev).ser ≠ (monitorSetup.2.getD 1 dDev).ser
    ∧ (monitorSetup.2.getD 0 dDev).ser ≠ (monitorSetup.2.getD 2 dDev).ser
    ∧ (monitorSetup.2.getD 1 dDev).ser ≠ (monitorSetup.2.getD 2 dDev).ser
    ∧ List.Pairwise (fun c1 c2 => c1.port ≠ c2.port) monitorSetup.1 := by
  refine ⟨?_, by decide, by decide, by decide, by decide⟩
  intro port baud conns
  refine ⟨rfl, by simp [open_serial_port], ?_⟩
  exact getD_append_self conns (Conn.mk port baud true) dConn

/-- C5 (counterexample): on the payload `"050018"` the code's scientific
decode yields `0500/1000 * 10^(18-20) = 0.005`, not the claimed `0.0005`
— the claim's own general formula gives `0.005` as well, so its concrete
example value is wrong. -/
theorem gauge_sci_example_is_not_00005 :
    (PfeifferGauge.read_data 3 [gaugeLine ("050018".data)]).value = some ((1 : ℚ) / 200)
    ∧ (PfeifferGauge.read_data 3 [gaugeLine ("050018".data)]).value ≠ some ((5 : ℚ) / 10000) := by
  have h := gauge_read_single_digits '0' '5' '0' '0' '1' '8'
    (by decide) (by decide) (by decide) (by decide) (by decide) (by decide)
  have hv : sciDecode ['0', '5', '0', '0', '1', '8'] = (1 : ℚ) / 200 := by
    have e1 : digitsToNat (List.take 4 ['0', '5', '0', '0', '1', '8']) = 500 := by decide
    have e2 : digitsToNat (List.drop 4 ['0', '5', '0', '0', '1', '8']) = 18 := by decide
    unfold sciDecode
    rw [qpow10_eq_zpow, e1, e2]
    norm_num
  constructor
  · rw [show ("050018".data) = ['0', '5', '0', '0', '1', '8'] from rfl, h, hv]
  · rw [show ("050018".data) = ['0', '5', '0', '0', '1', '8'] from rfl, h, hv]
    simp only [ne_eq, Option.some.injEq]
    norm_num

/-- C5 (amended): for 6-digit non-sentinel payloads the decode follows the
claimed formula `value = digits[0:4]/1000 * 10^(digits[4:6] - 20)` and
returns it with status OK; with that formula the concrete instances are
`"100020"` → 1.0 and `"050018"` → 0.005 (not 0.0005). -/
theorem gauge_scientific_decode_formula
    (a b c d e f : Char)
    (ha : a.isDigit = true) (hb : b.isDigit = true) (hc : c.isDigit = true)
    (hd : d.isDigit = true) (he : e.isDigit = true) (hf : f.isDigit = true)
    (_hs1 : [a, b, c, d, e, f] ≠ ['9', '9', '9', '9', '9', '9'])
    (_hs2 : [a, b, c, d, e, f] ≠ ['0', '0', '0', '0', '0', '0']) :
    PfeifferGauge.read_data 3 [gaugeLine [a, b, c, d, e, f]] =
      { value := some ((digitsToNat [a, b, c, d] : ℚ) / 1000 *
          (10 : ℚ) ^ ((digitsToNat [e, f] : Int) - 20)),
        unit := "mbar", status := "OK", field := none } := by
  rw [gauge_read_single_digits a b c d e f ha hb hc hd he hf]
  have hv : sciDecode [a, b, c, d, e, f] = (digitsToNat [a, b, c, d] : ℚ) / 1000 *
      (10 : ℚ) ^ ((digitsToNat [e, f] : Int) - 20) := by
    unfold sciDecode
    rw [qpow10_eq_zpow]
    rfl
  rw [hv]

/-- C5 (witness): instantiating the formula theorem, payload `"100020"`
decodes to 1.0 and payload `"050018"` decodes to 0.005. -/
theorem gauge_scientific_decode_formula_witness :
    (PfeifferGauge.read_data 3 [gaugeLine ("100020".data)]).value = some 1
    ∧ (PfeifferGauge.read_data 3 [gaugeLine ("050018".data)]).value = some ((1 : ℚ) / 200) := by
  constructor
  · have h := gauge_scientific_decode_formula '1' '0' '0' '0' '2' '0'
      (by decide) (by decide) (by decide) (by decide) (by decide) (by decide)
      (by decide) (by decide)
    rw [show ("100020".data) = ['1', '0', '0', '0', '2', '0'] from rfl, h]
    have e1 : digitsToNat ['1', '0', '0', '0'] = 1000 := by decide
    have e2 : digitsToNat ['2', '0'] = 20 := by decide
    rw [e1, e2]
    norm_num
  · have h := gauge_scientific_decode_formula '0' '5' '0' '0' '1' '8'
      (by decide) (by decide) (by decide) (by decide) (by decide) (by decide)
      (by decide) (by decide)
    rw [show ("050018".data) = ['0', '5', '0', '0', '1', '8'] from rfl, h]
    have e1 : digitsToNat ['0', '5', '0', '0'] = 500 := by decide
    have e2 : digitsToNat ['1', '8'] = 18 := by decide
    rw [e1, e2]
    norm_num

/-- C6: the poll loop forwards to the sink exactly the Readings with a
present value — a Reading with `value = none` is never submitted, every
returned Reading with a present value is submitted, and everything
submitted produces an actual sink write (`log_reading` does not drop it). -/
theorem poll_forwards_exactly_present_values (outs : List (String × DevOutcome)) :
    (∀ p ∈ pollCycleForwards outs, (p.2).value ≠ none)
    ∧ (∀ n r, (n, DevOutcome.returns r) ∈ outs → r.value ≠ none →
        (n, r) ∈ pollCycleForwards outs)
    ∧ (∀ p ∈ pollCycleForwards outs, InfluxLogger.log_reading p.1 p.2 ≠ none) := by
  have h1 : ∀ p ∈ pollCycleForwards outs, (p.2).value ≠ none := by
    induction outs with
    | nil => intro p hp; simp [pollCycleForwards] at hp
    | cons q rest ih =>
      intro p hp
      simp only [pollCycleForwards, List.mem_append] at hp
      rcases hp with hp | hp
      · obtain ⟨n, o⟩ := q
        cases o with
        | raises => simp [forwardOne] at hp
        | returns r =>
          simp only [forwardOne] at hp
          split_ifs at hp with hv
          · simp only [List.mem_singleton] at hp
            subst hp
            exact Option.isSome_iff_ne_none.mp hv
          · simp at hp
      · exact ih p hp
  refine ⟨h1, ?_, ?_⟩
  · intro n r hmem hv
    induction outs with
    | nil => simp at hmem
    | cons q rest ih =>
      simp only [List.mem_cons] at hmem
      simp only [pollCycleForwards, List.mem_append]
      rcases hmem with hmem | hmem
      · subst hmem
        left
        simp [forwardOne, Option.isSome_iff_ne_none.mpr hv]
      · right
        have h1r : ∀ p ∈ pollCycleForwards rest, (p.2).value ≠ none := by
          intro p hp
          exact h1 p (by simp [pollCycleForwards, List.mem_append, hp])
        exact ih h1r hmem
  · intro p hp
    have hv := h1 p hp
    obtain ⟨v, hv'⟩ := Option.ne_none_iff_exists'.mp hv
    simp [InfluxLogger.log_reading, hv']

/-- A valid OK reading used in witnesses. -/
def rOK : Reading :=
  { value := some 1, unit := "mbar", status := "OK", field := none }

/-- A reading with no value (an error status), used in witnesses. -/
def rBad : Reading :=
  { value := none, unit := "Hz", status := "Timeout", field := none }

/-- C6 (witness): in a concrete cycle, the OK reading of device "A" is
forwarded and logged, and the valueless reading of device "B" is not. -/
theorem poll_forwards_exactly_present_values_witness :
    ("A", rOK) ∈ pollCycleForwards [("A", DevOutcome.returns rOK), ("B", DevOutcome.returns rBad)]
    ∧ InfluxLogger.log_reading "A" rOK ≠ none
    ∧ ("B", rBad) ∉ pollCycleForwards
        [("A", DevOutcome.returns rOK), ("B", DevOutcome.returns rBad)] := by
  have h := poll_forwards_exactly_present_values
    [("A", DevOutcome.returns rOK), ("B", DevOutcome.returns rBad)]
  have hmem := h.2.1 "A" rOK (by decide) (by decide)
  refine ⟨hmem, h.2.2 ("A", rOK) hmem, ?_⟩
  intro hcon
  exact absurd rfl (h.1 ("B", rBad) hcon)

/-- C7: per-device fault isolation — a device whose read raises (or whose
reading carries no value, as every error status does) contributes nothing
to the sink, while devices before and after it in the same cycle forward
exactly what they would forward anyway; and the cycle still visits every
device (the results list has one entry per device, the raising one
recorded as caught). -/
theorem poll_cycle_fault_isolation (pre post : List (String × DevOutcome))
    (n : String) (b : DevOutcome) (hb : forwardOne (n, b) = []) :
    pollCycleForwards (pre ++ (n, b) :: post)
      = pollCycleForwards pre ++ pollCycleForwards post
    ∧ (pollCycleResults (pre ++ (n, b) :: post)).length = pre.length + post.length + 1 := by
  constructor
  · rw [pollCycleForwards_append]
    have h2 : pollCycleForwards ((n, b) :: post) = pollCycleForwards post := by
      simp [pollCycleForwards, hb]
    rw [h2]
  · rw [pollCycleResults_length]
    simp
    omega

/-- C7 (witness): with device "B" raising between "A" and "C", the cycle
forwards exactly what "A" and "C" alone would forward, and all three
devices are visited. -/
theorem poll_cycle_fault_isolation_witness :
    pollCycleForwards
        [("A", DevOutcome.returns rOK), ("B", DevOutcome.raises), ("C", DevOutcome.returns rOK)]
      = pollCycleForwards [("A", DevOutcome.returns rOK)]
        ++ pollCycleForwards [("C", DevOutcome.returns rOK)]
    ∧ (pollCycleResults
        [("A", DevOutcome.returns rOK), ("B", DevOutcome.raises),
          ("C", DevOutcome.returns rOK)]).length = 3 := by
  have h := poll_cycle_fault_isolation [("A", DevOutcome.returns rOK)]
    [("C", DevOutcome.returns rOK)] "B" DevOutcome.raises rfl
  exact ⟨h.1, h.2.trans (by decide)⟩

/-- C8 (counterexample): the gauge's Reading dict has no `'field'` key —
its field is not `"pressure"` — so when the sink logs a successful gauge
reading it falls back to the default field name `"value"`. -/
theorem gauge_reading_field_not_pressure :
    (PfeifferGauge.read_data 3 [gaugeLine ("100020".data)]).field ≠ some "pressure"
    ∧ (InfluxLogger.log_reading "Target chamber vacuum gauge"
        (PfeifferGauge.read_data 3 [gaugeLine ("100020".data)])).map InfluxPoint.fieldName
      = some "value" := by
  have h := gauge_read_single_digits '1' '0' '0' '0' '2' '0'
    (by decide) (by decide) (by decide) (by decide) (by decide) (by decide)
  rw [show ("100020".data) = ['1', '0', '0', '0', '2', '0'] from rfl, h]
  exact ⟨by simp, rfl⟩

/-- C8 (amended): `PfeifferGauge.read_data` polls the lines of its 2-second
window in order and always returns exactly one Reading with unit `"mbar"`
and no field name of its own (so the sink logs it under the default field
`"value"`, not `"pressure"`); if every line of the window is rejected (no
matching prefix passing the noise filter), the Reading has status
`"Timeout"`; otherwise the first accepted line decides the Reading. -/
theorem gauge_read_window_shape (address : Nat) (lines : List (List Char)) :
    (PfeifferGauge.read_data address lines).unit = "mbar"
    ∧ (PfeifferGauge.read_data address lines).field = none
    ∧ ((PfeifferGauge.read_data address lines).field.getD "value") = "value"
    ∧ ((∀ l ∈ lines, PfeifferGauge.readLine address l = none) →
        (PfeifferGauge.read_data address lines).status = "Timeout")
    ∧ (∀ pre l rest r, lines = pre ++ l :: rest →
        (∀ x ∈ pre, PfeifferGauge.readLine address x = none) →
        PfeifferGauge.readLine address l = some r →
        PfeifferGauge.read_data address lines = r) := by
  obtain ⟨hu, hfld⟩ := read_data_unit_field address lines
  refine ⟨hu, hfld, by rw [hfld]; rfl, read_data_timeout address lines, ?_⟩
  intro pre l rest r hsplit hpre hl
  rw [hsplit]
  exact read_data_first address pre l rest r hpre hl

/-- C8 (witness): a window whose only line is noise gives the Timeout
reading; with a noise line followed by a valid line, the valid line's OK
reading is returned, with unit mbar and default field name. -/
theorem gauge_read_window_shape_witness :
    (PfeifferGauge.read_data 3 [gaugeLine ("=?".data)]).status = "Timeout"
    ∧ (PfeifferGauge.read_data 3 [gaugeLine ("=?".data)]).unit = "mbar"
    ∧ PfeifferGauge.read_data 3 [gaugeLine ("=?".data), gaugeLine ("100020".data)]
      = { value := some (sciDecode ("100020".data)), unit := "mbar",
          status := "OK", field := none } := by
  have h1 := gauge_read_window_shape 3 [gaugeLine ("=?".data)]
  have h2 := gauge_read_window_shape 3 [gaugeLine ("=?".data), gaugeLine ("100020".data)]
  refine ⟨h1.2.2.2.1 (by decide), h1.1, ?_⟩
  have hsome : PfeifferGauge.readLine 3 (gaugeLine ("100020".data)) =
      some { value := some (sciDecode ("100020".data)), unit := "mbar",
             status := "OK", field := none } :=
    gauge_readLine_digits '1' '0' '0' '0' '2' '0'
      (by decide) (by decide) (by decide) (by decide) (by decide) (by decide)
  exact h2.2.2.2.2 [gaugeLine ("=?".data)] (gaugeLine ("100020".data)) [] _ rfl
    (by decide) hsome

/-- C9: a line whose decoded payload contains `"?"` or is shorter than 2
characters is command-echo noise: the gauge loop body never returns it as
data (it yields no Reading) and the read window simply continues with the
remaining lines. -/
theorem gauge_noise_filter_keeps_listening
    (address : Nat) (line : List Char) (ls : List (List Char))
    (hmatch : startsWithL line (respHeader address 740) = true)
    (hnoise : containsQ (trimL (pySliceL line 10 3)) = true
      ∨ (trimL (pySliceL line 10 3)).length < 2) :
    PfeifferGauge.readLine address line = none
    ∧ PfeifferGauge.read_data address (line :: ls) = PfeifferGauge.read_data address ls := by
  have hfilter : containsQ (trimL (pySliceL line 10 3)) = true
      ∨ (trimL (pySliceL line 10 3)).length < 6 := by
    rcases hnoise with h | h
    · exact Or.inl h
    · exact Or.inr (by omega)
  have hnone : PfeifferGauge.readLine address line = none := by
    simp only [PfeifferGauge.readLine]
    rw [if_pos hmatch, if_pos hfilter]
  refine ⟨hnone, ?_⟩
  simp only [PfeifferGauge.read_data, hnone]

/-- C9 (witness): the echoed payload `"=?"` and the length-1 payload `"5"`
are both discarded, and the window keeps listening past them. -/
theorem gauge_noise_filter_keeps_listening_witness :
    PfeifferGauge.readLine 3 (gaugeLine ("=?".data)) = none
    ∧ PfeifferGauge.read_data 3 [gaugeLine ("=?".data)] = PfeifferGauge.read_data 3 []
    ∧ PfeifferGauge.readLine 3 (gaugeLine ("5".data)) = none := by
  have h1 := gauge_noise_filter_keeps_listening 3 (gaugeLine ("=?".data)) []
    (by decide) (Or.inl (by decide))
  have h2 := gauge_noise_filter_keeps_listening 3 (gaugeLine ("5".data)) []
    (by decide) (Or.inr (by decide))
  exact ⟨h1.1, h1.2, h2.1⟩
